import Mathlib

/-!
Formal model of `tensorflow_federated/python/core/api/computations.py`.

The file defines a single public function:

    def tf_computation(*args):
      ...docstring...
      return computation_wrapper_instances.tensorflow_wrapper(*args)

`tf_computation` receives an arbitrary tuple of positional arguments and
forwards it, unchanged and in order, to the external constructor
`computation_wrapper_instances.tensorflow_wrapper`.  The constructor itself
lives outside the provided source tree; where its behaviour is needed it is
modelled from the specification.
-/

/-- A Python value as classified by the call grammar of `tf_computation`:
either a callable (a Python function or a TensorFlow defun), or a
non-callable TFF type specification.  The `Nat` tag stands for the identity
of the underlying Python object. -/
inductive PyVal where
  | func : Nat → PyVal
  | typeSpec : Nat → PyVal
deriving DecidableEq, Repr

/-- The possible results of the wrapping machinery, as described by the
specification: a wrapped computation holding the supplied function and the
optionally declared parameter type, a decorator-factory still awaiting a
function (remembering the optionally declared type), or the invalid-usage
error for malformed argument combinations. -/
inductive WrapResult where
  | computation : PyVal → Option PyVal → WrapResult
  | decoratorFactory : Option PyVal → WrapResult
  | error : WrapResult
deriving DecidableEq, Repr

/-- The body of `tf_computation` from the source, parametric in the delegate
it calls: the whole body is `return computation_wrapper_instances
.tensorflow_wrapper(*args)`, i.e. the positional-argument tuple is passed to
the delegate unchanged and its result is returned unchanged.  The delegate
and its result type are parameters so the forwarding can be stated for an
arbitrary collaborator. -/
def tf_computation_with {ρ : Type} (wrapper : List PyVal → ρ)
    (args : List PyVal) : ρ :=
  wrapper args

/-- Modelled from the spec: the external constructor
`computation_wrapper_instances.tensorflow_wrapper` is not part of the
provided source.  Per the specification it classifies the positional
arguments: zero arguments give a decorator-factory with no declared type;
one callable is wrapped immediately with no declared parameter type; one
non-callable type-spec gives a decorator-factory remembering that declared
type; a callable followed by a type-spec is wrapped immediately; any other
argument shape fails with the invalid-usage error. -/
def tensorflow_wrapper : List PyVal → WrapResult
  | [] => WrapResult.decoratorFactory none
  | [PyVal.func f] => WrapResult.computation (PyVal.func f) none
  | [PyVal.typeSpec t] => WrapResult.decoratorFactory (some (PyVal.typeSpec t))
  | [PyVal.func f, PyVal.typeSpec t] =>
      WrapResult.computation (PyVal.func f) (some (PyVal.typeSpec t))
  | _ => WrapResult.error

/-- `tf_computation` as defined in the source: forward the positional
arguments to `tensorflow_wrapper` and return its result. -/
def tf_computation (args : List PyVal) : WrapResult :=
  tf_computation_with tensorflow_wrapper args

/-- Modelled from the spec: a decorator-factory "itself accepts a function
and performs the wrap", wrapping the eventually-supplied function with the
declared type it remembers; supplying a non-callable is the invalid-usage
error. -/
def applyFactory (declared : Option PyVal) (f : PyVal) : WrapResult :=
  match f with
  | PyVal.func n => WrapResult.computation (PyVal.func n) declared
  | PyVal.typeSpec _ => WrapResult.error

/-- Calling the object returned by `tf_computation` with a function, as in
the decorator style of usage: calling a decorator-factory applies it; a
computation or an error is not a decorator and calling it this way is a
usage error. -/
def callWith (r : WrapResult) (f : PyVal) : WrapResult :=
  match r with
  | WrapResult.decoratorFactory declared => applyFactory declared f
  | _ => WrapResult.error

/-- The four supported call shapes of the documented grammar: zero
arguments, one callable, one non-callable type-spec, or exactly a callable
followed by a type-spec. -/
def isSupportedShape : List PyVal → Bool
  | [] => true
  | [PyVal.func _] => true
  | [PyVal.typeSpec _] => true
  | [PyVal.func _, PyVal.typeSpec _] => true
  | _ => false

/-- The call of `tf_computation` with an explicit ambient module state
threaded through.  The source body reads no module-level or shared mutable
state and writes none: it only evaluates the delegate on the argument
tuple, so the state passes through untouched.  The state type and the
delegate are parameters. -/
def tf_computation_call {σ : Type} (wrapper : List PyVal → WrapResult)
    (s : σ) (args : List PyVal) : WrapResult × σ :=
  (wrapper args, s)

/-- Python argument binding for the signature `def tf_computation(*args)`:
the parameter list consists of a single varargs parameter and nothing else,
so a call binds exactly when no keyword arguments are supplied; any keyword
argument makes the binding itself fail (a `TypeError` at the call surface). -/
def bindVarargsOnly (pos : List PyVal) (kw : List (String × PyVal)) :
    Option (List PyVal) :=
  match kw with
  | [] => some pos
  | _ => none

/-- A Python-level call of a function with signature `(*args)`: bind the
supplied positional and keyword arguments against the signature first; only
when binding succeeds does the body run on the bound tuple. -/
def py_call_varargs_only {ρ : Type} (body : List PyVal → ρ)
    (pos : List PyVal) (kw : List (String × PyVal)) : Option ρ :=
  (bindVarargsOnly pos kw).map body

/-- A Python-level call of `tf_computation` itself, with positional and
keyword arguments. -/
def tf_computation_pycall (pos : List PyVal) (kw : List (String × PyVal)) :
    Option WrapResult :=
  py_call_varargs_only tf_computation pos kw

/-- Helper: on every argument shape outside the supported grammar, the
spec-modelled `tensorflow_wrapper` yields the invalid-usage error. -/
theorem tensorflow_wrapper_error_of_unsupported :
    ∀ args : List PyVal, isSupportedShape args = false →
      tensorflow_wrapper args = WrapResult.error
  | [], h => by simp [isSupportedShape] at h
  | [PyVal.func _], h => by simp [isSupportedShape] at h
  | [PyVal.typeSpec _], h => by simp [isSupportedShape] at h
  | [PyVal.func _, PyVal.typeSpec _], h => by simp [isSupportedShape] at h
  | [PyVal.func _, PyVal.func _], _ => rfl
  | [PyVal.typeSpec _, PyVal.func _], _ => rfl
  | [PyVal.typeSpec _, PyVal.typeSpec _], _ => rfl
  | a :: b :: _ :: _, _ => by cases a <;> cases b <;> rfl

/-- C1: for every tuple of positional arguments, `tf_computation` returns
exactly the result of calling the external constructor
`computation_wrapper_instances.tensorflow_wrapper` on the same arguments,
unchanged and in the same order, with no transformation of the arguments or
of the returned value — stated for an arbitrary delegate of arbitrary
result type, and for the concrete delegate. -/
theorem C1_tf_computation_forwards_unchanged :
    (∀ (ρ : Type) (wrapper : List PyVal → ρ) (args : List PyVal),
        tf_computation_with wrapper args = wrapper args) ∧
    (∀ args : List PyVal, tf_computation args = tensorflow_wrapper args) :=
  ⟨fun _ _ _ => rfl, fun _ => rfl⟩

/-- C2 counterexample: the claim that an unsupported argument shape fails
with an error raised locally, before and without calling the external
wrapper constructor, is false: on the unsupported shape of two type-specs
the result of `tf_computation` is whatever the delegate returns, so the
delegate is called and no local error branch preempts it. -/
theorem C2_counterexample_error_not_local :
    ¬ (∀ wrapper : List PyVal → WrapResult,
        tf_computation_with wrapper [PyVal.typeSpec 0, PyVal.typeSpec 1] =
          WrapResult.error) := by
  intro h
  have h2 := h (fun _ => WrapResult.decoratorFactory none)
  simp [tf_computation_with] at h2

/-- C2 amended: for every unsupported positional-argument shape,
`tf_computation` does not fail locally: it still forwards the arguments to
the external wrapper constructor, and the invalid-usage error is the one
raised by that delegate. -/
theorem C2_amended_error_from_delegate (args : List PyVal)
    (h : isSupportedShape args = false) :
    tf_computation args = tensorflow_wrapper args ∧
      tensorflow_wrapper args = WrapResult.error :=
  ⟨rfl, tensorflow_wrapper_error_of_unsupported args h⟩

/-- Witness for the amended C2 at the concrete unsupported shape of two
type-specs. -/
theorem C2_amended_witness :
    isSupportedShape [PyVal.typeSpec 0, PyVal.typeSpec 1] = false ∧
      (tf_computation [PyVal.typeSpec 0, PyVal.typeSpec 1] =
          tensorflow_wrapper [PyVal.typeSpec 0, PyVal.typeSpec 1] ∧
        tensorflow_wrapper [PyVal.typeSpec 0, PyVal.typeSpec 1] =
          WrapResult.error) :=
  ⟨by decide,
    C2_amended_error_from_delegate [PyVal.typeSpec 0, PyVal.typeSpec 1]
      (by decide)⟩

/-- C3: calling `tf_computation` with zero positional arguments returns a
decorator-factory, not a computation; applying that factory to a function
afterwards returns a wrapped computation. -/
theorem C3_zero_args_decorator_factory :
    tf_computation [] = WrapResult.decoratorFactory none ∧
    (∀ n : Nat, callWith (tf_computation []) (PyVal.func n) =
        WrapResult.computation (PyVal.func n) none) ∧
    (∀ (f : PyVal) (d : Option PyVal),
        tf_computation [] ≠ WrapResult.computation f d) :=
  ⟨rfl, fun _ => rfl, fun _ _ h => by simp [tf_computation,
    tf_computation_with, tensorflow_wrapper] at h⟩

/-- C4: for every callable `f`, calling `tf_computation` with `f` as the
single positional argument returns a wrapped computation directly, with no
further call needed. -/
theorem C4_one_callable_immediate_wrap (n : Nat) :
    tf_computation [PyVal.func n] =
      WrapResult.computation (PyVal.func n) none :=
  rfl

/-- C5: for every non-callable type-spec argument, calling `tf_computation`
with it as the single positional argument returns a decorator-factory
awaiting a function, not a computation. -/
theorem C5_one_typespec_decorator_factory (t : Nat) :
    tf_computation [PyVal.typeSpec t] =
      WrapResult.decoratorFactory (some (PyVal.typeSpec t)) ∧
    (∀ (f : PyVal) (d : Option PyVal),
        tf_computation [PyVal.typeSpec t] ≠ WrapResult.computation f d) :=
  ⟨rfl, fun _ _ h => by simp [tf_computation, tf_computation_with,
    tensorflow_wrapper] at h⟩

/-- C6: for every callable `f` and type-spec `T`, calling `tf_computation`
with exactly the two positional arguments `(f, T)` returns a wrapped
computation directly. -/
theorem C6_two_args_immediate_wrap (n t : Nat) :
    tf_computation [PyVal.func n, PyVal.typeSpec t] =
      WrapResult.computation (PyVal.func n) (some (PyVal.typeSpec t)) :=
  rfl

/-- C7: applying the decorator-factory returned by `tf_computation T` to a
function `f` yields the same wrapped computation as the immediate
two-argument call `tf_computation (f, T)`: the decorator form is equivalent
to the direct form. -/
theorem C7_decorator_equals_direct (n t : Nat) :
    callWith (tf_computation [PyVal.typeSpec t]) (PyVal.func n) =
      tf_computation [PyVal.func n, PyVal.typeSpec t] :=
  rfl

/-- C8: `tf_computation` reads and writes no shared or module-level mutable
state: threading an arbitrary ambient state of an arbitrary type through
the call, two runs with equal positional arguments and equal delegate
produce the same result irrespective of the ambient states, each run
invokes the delegate on exactly the argument tuple, and the ambient state
is returned unchanged. -/
theorem C8_no_shared_state_determinism :
    ∀ (σ : Type) (wrapper : List PyVal → WrapResult) (s₁ s₂ : σ)
      (args : List PyVal),
      (tf_computation_call wrapper s₁ args).1 =
          (tf_computation_call wrapper s₂ args).1 ∧
        (tf_computation_call wrapper s₁ args).1 = wrapper args ∧
        (tf_computation_call wrapper s₁ args).2 = s₁ :=
  fun _ _ _ _ _ => ⟨rfl, rfl, rfl⟩

/-- C9: `tf_computation` performs no local validation of argument arity or
kind: on every positional tuple outside the supported call grammar it still
returns exactly the delegate's result on that tuple, so the delegate is
invoked and any invalid-usage error can only originate in the delegate. -/
theorem C9_no_local_validation (wrapper : List PyVal → WrapResult)
    (args : List PyVal) (_h : isSupportedShape args = false) :
    tf_computation_with wrapper args = wrapper args ∧
      (tf_computation_with wrapper args = WrapResult.error →
        wrapper args = WrapResult.error) :=
  ⟨rfl, fun he => he⟩

/-- Witness for C9 at the concrete delegate and a three-argument tuple. -/
theorem C9_no_local_validation_witness :
    isSupportedShape [PyVal.func 0, PyVal.typeSpec 1, PyVal.typeSpec 2] =
        false ∧
      tf_computation_with tensorflow_wrapper
          [PyVal.func 0, PyVal.typeSpec 1, PyVal.typeSpec 2] =
        tensorflow_wrapper [PyVal.func 0, PyVal.typeSpec 1, PyVal.typeSpec 2] :=
  ⟨by decide,
    (C9_no_local_validation tensorflow_wrapper
        [PyVal.func 0, PyVal.typeSpec 1, PyVal.typeSpec 2] (by decide)).1⟩

/-- C10: the public interface accepts positional arguments only: any call
of `tf_computation` that supplies a keyword argument fails at the call
surface itself, before — and no matter what — the body would do, so in
particular before the external wrapper constructor is invoked. -/
theorem C10_keyword_call_fails_at_surface (pos : List PyVal)
    (kw : List (String × PyVal)) (h : kw ≠ []) :
    tf_computation_pycall pos kw = none ∧
      ∀ (ρ : Type) (body : List PyVal → ρ),
        py_call_varargs_only body pos kw = none := by
  match kw with
  | [] => exact absurd rfl h
  | _ :: _ =>
      exact ⟨rfl, fun _ _ => rfl⟩

/-- Witness for C10 at a concrete keyword call. -/
theorem C10_keyword_call_witness :
    ([(String.mk [Char.ofNat 102, Char.ofNat 110], PyVal.typeSpec 0)] :
        List (String × PyVal)) ≠ [] ∧
      tf_computation_pycall []
          [(String.mk [Char.ofNat 102, Char.ofNat 110], PyVal.typeSpec 0)] =
        none :=
  ⟨by decide,
    (C10_keyword_call_fails_at_surface []
        [(String.mk [Char.ofNat 102, Char.ofNat 110], PyVal.typeSpec 0)]
        (by decide)).1⟩
